import Mathlib

/-!
Shallow embedding of `tinman/handlers/redis.py` (`RedisRequestHandler`).

The handler is a Tornado `web.RequestHandler` mixin.  Its state lives on the
hosting application object: `application.tinman` is an attribute container on
which the redis client is stored under the class constant `REDIS_CLIENT`
(overridable, so the embedding is parameterised by the attribute name), and
`application.settings` is the configuration mapping whose `redis` key holds
the optional `host` / `port` / `db` entries.

Each autogenerated command wrapper is decorated with `tornado.gen.engine` and
has a body consisting of a single bare `yield gen.Task(self._redis_client.cmd,
arg1, ..., argN)`.  We embed a wrapper as the list of tasks its body
dispatches (each task records the client object looked up at dispatch time,
the command method name, and the positional arguments in order), and
separately as the value the wrapper delivers to its Python caller under
`gen.engine` semantics.
-/

namespace Tinman

/-- A dynamically typed Python argument value as passed to a wrapper: the
wrappers take keys and values (strings), integers, enum tuples, or even
`None`; nothing in the wrapper body inspects the value. -/
inductive Arg
  | str (s : String)
  | int (n : Int)
  | tup (flags : List String)
  | pynone
  deriving DecidableEq, Repr

/-- A reply value from the backing store: nil, scalar, or list shaped. -/
inductive RedisValue
  | nil
  | str (s : String)
  | int (n : Int)
  | list (vs : List String)
  deriving DecidableEq, Repr

/-- Model of a `tornadoredis.Client` instance: the connection settings it was
constructed with, plus an instance identifier that distinguishes separately
constructed objects (Python reference identity). -/
structure Client where
  id : Nat
  host : String
  port : Int
  selected_db : Int
  deriving DecidableEq, Repr

/-- The `redis` entry of `application.settings`: a mapping with optional keys
`host`, `port` and `db`. -/
structure RedisConfig where
  host : Option String
  port : Option Int
  db : Option Int
  deriving DecidableEq, Repr

/-- The keyword arguments built by `_redis_connection_settings` and passed to
`tornadoredis.Client`. -/
structure ConnectionSettings where
  host : String
  port : Int
  selected_db : Int
  deriving DecidableEq, Repr

/-- Attribute table of the `application.tinman` object, as an association
list; `setattr` prepends a binding and `getattr` reads the most recent one. -/
abbrev AttrTable : Type := List (String × Client)

/-- Python `getattr(obj, name, None)` over the attribute table. -/
def attr_get (l : AttrTable) (name : String) : Option Client :=
  match l with
  | [] => none
  | (k, c) :: rest => if k = name then some c else attr_get rest name

/-- The slice of the hosting Tornado application that the handler touches,
together with instrumentation: `construct_count` counts invocations of the
`tornadoredis.Client` constructor (the construction counter the spec asks
for), and `next_id` supplies fresh instance identities. -/
structure App where
  tinman : AttrTable
  redis : Option RedisConfig
  construct_count : Nat
  next_id : Nat
  deriving DecidableEq, Repr

/-- Class constant `REDIS_CLIENT = 'redis'`. -/
def REDIS_CLIENT : String := "redis"

/-- Class constant `REDIS_HOST = 'localhost'`. -/
def REDIS_HOST : String := "localhost"

/-- Class constant `REDIS_PORT = 6379`. -/
def REDIS_PORT : Int := 6379

/-- Class constant `REDIS_DB = 0`. -/
def REDIS_DB : Int := 0

/-- `_redis_settings`: `self.application.settings.get('redis', dict())`. -/
def redis_settings (app : App) : RedisConfig :=
  app.redis.getD { host := none, port := none, db := none }

/-- `_redis_connection_settings`: applies the per field defaults to the
configuration mapping, producing the keyword arguments for the client
constructor. -/
def redis_connection_settings (app : App) : ConnectionSettings :=
  { host := (redis_settings app).host.getD REDIS_HOST
  , port := (redis_settings app).port.getD REDIS_PORT
  , selected_db := (redis_settings app).db.getD REDIS_DB }

/-- `_has_redis_client`: `hasattr(self.application.tinman, self.REDIS_CLIENT)`.
The attribute name is a parameter because `REDIS_CLIENT` is an overridable
class constant. -/
def has_redis_client (app : App) (name : String) : Bool :=
  (attr_get app.tinman name).isSome

/-- `_redis_client`: `getattr(self.application.tinman, self.REDIS_CLIENT,
None)` — the absent case yields `None`, it does not raise. -/
def redis_client (app : App) (name : String) : Option Client :=
  attr_get app.tinman name

/-- `_set_redis_client`: `setattr(self.application.tinman, self.REDIS_CLIENT,
client)`. -/
def set_redis_client (app : App) (name : String) (c : Client) : App :=
  { app with tinman := (name, c) :: app.tinman }

/-- `_connect_to_redis`: `tornadoredis.Client(**self._redis_connection_settings)`.
The constructor is external; whether the transport can be established is an
oracle `canConnect` indexed by the attempt number.  Every constructor
invocation bumps the construction counter; a successful one yields a fresh
instance built from the resolved connection settings. -/
def connect_to_redis (canConnect : Nat → Bool) (app : App) :
    Option Client × App :=
  let bumped : App :=
    { app with construct_count := app.construct_count + 1
             , next_id := app.next_id + 1 }
  if canConnect app.construct_count then
    (some { id := app.next_id
          , host := (redis_connection_settings app).host
          , port := (redis_connection_settings app).port
          , selected_db := (redis_connection_settings app).selected_db }
    , bumped)
  else
    (none, bumped)

/-- Outcome of a `prepare` call: the application state afterwards, and whether
the client constructor raised a connection error.  When it raises, the
exception propagates out of `prepare` before `_set_redis_client` runs. -/
structure PrepResult where
  app : App
  connection_error : Bool
  deriving DecidableEq, Repr

/-- `prepare`: if no client attribute is stored on `application.tinman`,
construct one and store it; otherwise do nothing.  The body is synchronous
Python with no yield point, so under the cooperative scheduler a `prepare`
call runs to completion atomically. -/
def prepare (canConnect : Nat → Bool) (app : App) (name : String) :
    PrepResult :=
  if has_redis_client app name then
    { app := app, connection_error := false }
  else
    match connect_to_redis canConnect app with
    | (some c, app1) =>
        { app := set_redis_client app1 name c, connection_error := false }
    | (none, app1) =>
        { app := app1, connection_error := true }

/-- One `gen.Task` handed to the transport: the client object that was looked
up at dispatch time (possibly `None`), the command method name on the client,
and the positional arguments, in order. -/
structure Dispatched where
  client : Option Client
  command : String
  args : List Arg
  deriving DecidableEq, Repr

/-- `_redis_get` body: `yield gen.Task(self._redis_client.get, key)`. -/
def redis_get_tasks (app : App) (name : String) (key : Arg) :
    List Dispatched :=
  [{ client := redis_client app name, command := "get", args := [key] }]

/-- `_redis_set` body: `yield gen.Task(self._redis_client.set, key, value)`. -/
def redis_set_tasks (app : App) (name : String) (key value : Arg) :
    List Dispatched :=
  [{ client := redis_client app name, command := "set", args := [key, value] }]

/-- `_redis_append` body: `yield gen.Task(self._redis_client.append, key,
value)`. -/
def redis_append_tasks (app : App) (name : String) (key value : Arg) :
    List Dispatched :=
  [{ client := redis_client app name, command := "append"
   , args := [key, value] }]

/-- `_redis_migrate` body: `yield gen.Task(self._redis_client.migrate, host,
port, key, destination_db, timeout)`. -/
def redis_migrate_tasks (app : App) (name : String)
    (host port key destination_db timeout : Arg) : List Dispatched :=
  [{ client := redis_client app name, command := "migrate"
   , args := [host, port, key, destination_db, timeout] }]

/-- `_redis_zadd` body: `yield gen.Task(self._redis_client.zadd, key, score,
value)`. -/
def redis_zadd_tasks (app : App) (name : String) (key score value : Arg) :
    List Dispatched :=
  [{ client := redis_client app name, command := "zadd"
   , args := [key, score, value] }]

/-- `_redis_linsert` body: `yield gen.Task(self._redis_client.linsert, key,
where, pivot, value)`. -/
def redis_linsert_tasks (app : App) (name : String)
    (key wh pivot value : Arg) : List Dispatched :=
  [{ client := redis_client app name, command := "linsert"
   , args := [key, wh, pivot, value] }]

/-- `_redis_zrange` body: `yield gen.Task(self._redis_client.zrange, key,
start, stop, withscores)`. -/
def redis_zrange_tasks (app : App) (name : String)
    (key start stop withscores : Arg) : List Dispatched :=
  [{ client := redis_client app name, command := "zrange"
   , args := [key, start, stop, withscores] }]

/-- Value `_redis_get` delivers to its Python caller, given the transport
`exec`.  The body is a bare `yield gen.Task(...)`: the reply resumes the
generator but is bound to nothing, nothing follows the yield, no
`gen.Return` is raised and no callback exists, and a `gen.engine` decorated
function itself always returns `None`; so the caller receives no value. -/
def redis_get_result (exec : Dispatched → RedisValue) (app : App)
    (name : String) (key : Arg) : Option RedisValue :=
  let _reply :=
    exec { client := redis_client app name, command := "get", args := [key] }
  none

/-- Value `_redis_set` delivers to its Python caller; same `gen.engine`
shape as `redis_get_result`, the reply to the task is discarded. -/
def redis_set_result (exec : Dispatched → RedisValue) (app : App)
    (name : String) (key value : Arg) : Option RedisValue :=
  let _reply :=
    exec { client := redis_client app name, command := "set"
         , args := [key, value] }
  none

/-- A concrete client instance, for closed instantiations. -/
def client0 : Client :=
  { id := 0, host := "localhost", port := 6379, selected_db := 0 }

/-- An application scope with nothing stored and no `redis` settings. -/
def app_empty : App :=
  { tinman := [], redis := none, construct_count := 0, next_id := 0 }

/-- An application scope that already holds `client0` under `"redis"`. -/
def app_with : App :=
  { tinman := [("redis", client0)], redis := none
  , construct_count := 1, next_id := 1 }

/-- A concrete configuration mapping supplying `host` and `db` but not
`port`. -/
def cfg1 : RedisConfig :=
  { host := some "h.example", port := none, db := some 5 }

/-- An application scope whose settings carry `cfg1`. -/
def app_cfg : App :=
  { tinman := [], redis := some cfg1, construct_count := 0, next_id := 0 }

/-- A transport oracle under which the backing store replies `"v"` to every
`get` task and `1` to everything else. -/
def exec0 : Dispatched → RedisValue := fun t =>
  if t.command = "get" then RedisValue.str "v" else RedisValue.int 1

/-- A constructor oracle under which the transport is always reachable. -/
def cc_true : Nat → Bool := fun _ => true

/-- A constructor oracle under which the first attempt is refused and later
attempts succeed. -/
def cc_retry : Nat → Bool := fun n => decide (0 < n)

/-! Helper lemmas about the attribute table. -/

theorem attr_get_set_self (l : AttrTable) (name : String) (c : Client) :
    attr_get ((name, c) :: l) name = some c := by
  simp [attr_get]

theorem redis_client_set_self (app : App) (name : String) (c : Client) :
    redis_client (set_redis_client app name c) name = some c := by
  simp [redis_client, set_redis_client, attr_get_set_self]

theorem has_redis_client_set_self (app : App) (name : String) (c : Client) :
    has_redis_client (set_redis_client app name c) name = true := by
  simp [has_redis_client, set_redis_client, attr_get_set_self]

theorem redis_client_isSome (app : App) (name : String) :
    (redis_client app name).isSome = has_redis_client app name := rfl

theorem redis_client_none_of_absent (app : App) (name : String)
    (h : has_redis_client app name = false) : redis_client app name = none := by
  have h1 : (redis_client app name).isSome = false := h
  cases h2 : redis_client app name with
  | none => rfl
  | some c => rw [h2] at h1; simp at h1

theorem prepare_of_stored (cc : Nat → Bool) (app : App) (name : String)
    (h : has_redis_client app name = true) :
    prepare cc app name = { app := app, connection_error := false } := by
  simp [prepare, h]

/-! Claim theorems. -/

/-- Claim C2: configuration resolution fills exactly the documented defaults
(`localhost`, `6379`, `0`) for missing fields, also when the whole `redis`
mapping is absent, leaves supplied fields untouched, and is pure and
deterministic in the configuration mapping. -/
theorem config_resolution (a b : App) (cfg : RedisConfig) (h : String)
    (p d : Int) :
    (a.redis = none →
      redis_connection_settings a =
        { host := "localhost", port := 6379, selected_db := 0 }) ∧
    (a.redis = some cfg → cfg.host = none →
      (redis_connection_settings a).host = "localhost") ∧
    (a.redis = some cfg → cfg.host = some h →
      (redis_connection_settings a).host = h) ∧
    (a.redis = some cfg → cfg.port = none →
      (redis_connection_settings a).port = 6379) ∧
    (a.redis = some cfg → cfg.port = some p →
      (redis_connection_settings a).port = p) ∧
    (a.redis = some cfg → cfg.db = none →
      (redis_connection_settings a).selected_db = 0) ∧
    (a.redis = some cfg → cfg.db = some d →
      (redis_connection_settings a).selected_db = d) ∧
    (a.redis = b.redis →
      redis_connection_settings a = redis_connection_settings b) := by
  refine ⟨?_, ?_, ?_, ?_, ?_, ?_, ?_, ?_⟩
  · intro h1
    simp [redis_connection_settings, redis_settings, h1, REDIS_HOST,
      REDIS_PORT, REDIS_DB]
  · intro h1 h2
    simp [redis_connection_settings, redis_settings, h1, h2, REDIS_HOST]
  · intro h1 h2
    simp [redis_connection_settings, redis_settings, h1, h2]
  · intro h1 h2
    simp [redis_connection_settings, redis_settings, h1, h2, REDIS_PORT]
  · intro h1 h2
    simp [redis_connection_settings, redis_settings, h1, h2]
  · intro h1 h2
    simp [redis_connection_settings, redis_settings, h1, h2, REDIS_DB]
  · intro h1 h2
    simp [redis_connection_settings, redis_settings, h1, h2]
  · intro h1
    simp [redis_connection_settings, redis_settings, h1]

/-- Witness for C2 at concrete inputs: absent mapping resolves to all
defaults; `cfg1` keeps its supplied host and db and defaults the port. -/
theorem config_resolution_witness :
    redis_connection_settings app_empty =
      { host := "localhost", port := 6379, selected_db := 0 } ∧
    (redis_connection_settings app_cfg).host = "h.example" ∧
    (redis_connection_settings app_cfg).port = 6379 ∧
    (redis_connection_settings app_cfg).selected_db = 5 := by
  have h0 := config_resolution app_empty app_empty cfg1 "h.example" 6379 5
  have h1 := config_resolution app_cfg app_cfg cfg1 "h.example" 6379 5
  exact ⟨h0.1 rfl, h1.2.2.1 rfl rfl, h1.2.2.2.1 rfl rfl,
    h1.2.2.2.2.2.2.1 rfl rfl⟩

/-- Claim C3 is false of the code: the transport reply to a dispatched task is
discarded by the `gen.engine` wrapper, so the caller receives `none` and never
the raw result, even when the backing store replied with a value (`exec0`
replies `"v"` to the `get` task that `_redis_get` dispatches). -/
theorem wrappers_discard_reply :
    exec0 { client := some client0, command := "get"
          , args := [Arg.str "k"] } = RedisValue.str "v" ∧
    redis_get_result exec0 app_with "redis" (Arg.str "k") = none ∧
    redis_get_result exec0 app_with "redis" (Arg.str "k") ≠
      some (RedisValue.str "v") ∧
    (∀ (ex : Dispatched → RedisValue) (app : App) (name : String) (key : Arg),
      redis_get_result ex app name key = none) ∧
    (∀ (ex : Dispatched → RedisValue) (app : App) (name : String)
      (key value : Arg), redis_set_result ex app name key value = none) := by
  refine ⟨rfl, rfl, by simp [redis_get_result], fun _ _ _ _ => rfl,
    fun _ _ _ _ _ => rfl⟩

/-- Claim C5: a wrapper obtains the client from the registry accessor at the
moment of invocation, so a dispatch performed after the registry replaced the
stored handle targets the replacement, for every prior state. -/
theorem dispatch_observes_replacement (app : App) (name : String) (c : Client)
    (key value : Arg) :
    redis_append_tasks (set_redis_client app name c) name key value =
      [{ client := some c, command := "append", args := [key, value] }] ∧
    (∀ a : App, redis_append_tasks a name key value =
      [{ client := redis_client a name, command := "append"
       , args := [key, value] }]) := by
  exact ⟨by rw [redis_append_tasks, redis_client_set_self], fun _ => rfl⟩

/-- Claim C6: `_redis_migrate` and `_redis_zadd` dispatch exactly one task,
whose command name is the wrapped command and whose arguments are the
positional arguments verbatim in the given order — no reordering, batching,
retry, or coercion. -/
theorem forward_verbatim (app : App) (name : String)
    (host port key destination_db timeout score value : Arg) :
    redis_migrate_tasks app name host port key destination_db timeout =
      [{ client := redis_client app name, command := "migrate"
       , args := [host, port, key, destination_db, timeout] }] ∧
    redis_zadd_tasks app name key score value =
      [{ client := redis_client app name, command := "zadd"
       , args := [key, score, value] }] := ⟨rfl, rfl⟩

/-- Claim C7: `_redis_linsert` and `_redis_zrange` perform no local arity or
type validation: for arbitrary argument values of any shape (strings,
integers, tuples, `None`), the wrapper still dispatches a single task carrying
the arguments unchanged, never reporting a mismatch locally. -/
theorem no_local_validation (app : App) (name : String)
    (key wh pivot value start stop withscores : Arg) :
    redis_linsert_tasks app name key wh pivot value =
      [{ client := redis_client app name, command := "linsert"
       , args := [key, wh, pivot, value] }] ∧
    redis_zrange_tasks app name key start stop withscores =
      [{ client := redis_client app name, command := "zrange"
       , args := [key, start, stop, withscores] }] := ⟨rfl, rfl⟩

/-- Claim C9: with nothing stored on the scope, the read accessor returns the
sentinel `none` rather than raising, and a wrapper invoked in that state
dispatches its task against `none` instead of a handle. -/
theorem accessor_absent_sentinel (app : App) (name : String) (key : Arg)
    (h : has_redis_client app name = false) :
    redis_client app name = none ∧
    redis_get_tasks app name key =
      [{ client := none, command := "get", args := [key] }] := by
  have h1 := redis_client_none_of_absent app name h
  exact ⟨h1, by rw [redis_get_tasks, h1]⟩

/-- Claim C1: once the first `prepare` has succeeded (or the scope was already
populated), a second `prepare` is a side-effect-free read: it returns the
state unchanged, raises nothing, performs no construction (the construction
counter is unchanged), and the stored handle read back is the identical
instance. -/
theorem prepare_idempotent (cc : Nat → Bool) (app : App) (name : String)
    (h : (prepare cc app name).connection_error = false) :
    prepare cc (prepare cc app name).app name =
      { app := (prepare cc app name).app, connection_error := false } ∧
    redis_client (prepare cc (prepare cc app name).app name).app name =
      redis_client (prepare cc app name).app name ∧
    (redis_client (prepare cc app name).app name).isSome = true ∧
    (prepare cc (prepare cc app name).app name).app.construct_count =
      (prepare cc app name).app.construct_count := by
  have hstored : has_redis_client (prepare cc app name).app name = true := by
    by_cases hs : has_redis_client app name = true
    · simp [prepare, hs]
    · have hs1 : has_redis_client app name = false := by simpa using hs
      by_cases hc : cc app.construct_count = true
      · simp [prepare, hs1, connect_to_redis, hc, has_redis_client_set_self]
      · exfalso
        have hc1 : cc app.construct_count = false := by simpa using hc
        have hbad : (prepare cc app name).connection_error = true := by
          simp [prepare, hs1, connect_to_redis, hc1]
        rw [hbad] at h
        exact Bool.noConfusion h
  have h2nd := prepare_of_stored cc (prepare cc app name).app name hstored
  refine ⟨h2nd, by rw [h2nd], ?_, by rw [h2nd]⟩
  rw [redis_client_isSome]
  exact hstored

/-- Witness for C1: a successful first call on the empty scope. -/
theorem prepare_idempotent_witness :
    prepare cc_true (prepare cc_true app_empty "redis").app "redis" =
      { app := (prepare cc_true app_empty "redis").app
      , connection_error := false } ∧
    redis_client
        (prepare cc_true (prepare cc_true app_empty "redis").app "redis").app
        "redis" =
      redis_client (prepare cc_true app_empty "redis").app "redis" ∧
    (redis_client (prepare cc_true app_empty "redis").app "redis").isSome =
      true ∧
    (prepare cc_true
        (prepare cc_true app_empty "redis").app "redis").app.construct_count =
      (prepare cc_true app_empty "redis").app.construct_count :=
  prepare_idempotent cc_true app_empty "redis" (by decide)

/-- Claim C4: when the scope is empty and the constructor raises, `prepare`
reports the connection error, the attribute table is unchanged (no partial
handle is stored), the scope still has no client, the constructor was invoked
exactly once, and the next call attempts construction again from scratch
(succeeding if the transport is then reachable). -/
theorem prepare_connection_error (cc : Nat → Bool) (app : App) (name : String)
    (h1 : has_redis_client app name = false)
    (h2 : cc app.construct_count = false) :
    (prepare cc app name).connection_error = true ∧
    (prepare cc app name).app.tinman = app.tinman ∧
    has_redis_client (prepare cc app name).app name = false ∧
    (prepare cc app name).app.construct_count = app.construct_count + 1 ∧
    (cc (app.construct_count + 1) = true →
      (prepare cc (prepare cc app name).app name).connection_error = false ∧
      has_redis_client (prepare cc (prepare cc app name).app name).app name =
        true) := by
  have hp : prepare cc app name =
      { app := { app with construct_count := app.construct_count + 1
                        , next_id := app.next_id + 1 }
      , connection_error := true } := by
    simp [prepare, h1, connect_to_redis, h2]
  refine ⟨by rw [hp], by rw [hp], by rw [hp]; exact h1, by rw [hp], ?_⟩
  intro h3
  have hA : has_redis_client
      { app with construct_count := app.construct_count + 1
               , next_id := app.next_id + 1 } name = false := h1
  constructor
  · rw [hp]
    simp [prepare, hA, connect_to_redis, h3]
  · rw [hp]
    simp [prepare, hA, connect_to_redis, h3, has_redis_client_set_self]

/-- Witness for C4: `cc_retry` refuses the first attempt on the empty scope
and accepts the second. -/
theorem prepare_connection_error_witness :
    (prepare cc_retry app_empty "redis").connection_error = true ∧
    (prepare cc_retry app_empty "redis").app.tinman = app_empty.tinman ∧
    has_redis_client (prepare cc_retry app_empty "redis").app "redis" =
      false ∧
    (prepare cc_retry app_empty "redis").app.construct_count =
      app_empty.construct_count + 1 ∧
    ((prepare cc_retry
        (prepare cc_retry app_empty "redis").app "redis").connection_error =
      false ∧
    has_redis_client
        (prepare cc_retry
          (prepare cc_retry app_empty "redis").app "redis").app "redis" =
      true) := by
  have h := prepare_connection_error cc_retry app_empty "redis" (by decide)
    (by decide)
  exact ⟨h.1, h.2.1, h.2.2.1, h.2.2.2.1, h.2.2.2.2 (by decide)⟩

/-- Claim C8: two `prepare` calls racing on an empty scope.  The `prepare`
body is synchronous with no yield point, so under the cooperative scheduler
the two calls serialize; for either serialization (the two calls are
identical, so one sequential composition covers both orders) exactly one
construction occurs and both callers read back the same stored instance. -/
theorem prepare_race (cc : Nat → Bool) (app : App) (name : String)
    (h1 : has_redis_client app name = false)
    (h2 : cc app.construct_count = true) :
    (prepare cc (prepare cc app name).app name).app =
      (prepare cc app name).app ∧
    (prepare cc app name).app.construct_count = app.construct_count + 1 ∧
    (prepare cc
        (prepare cc app name).app name).app.construct_count =
      app.construct_count + 1 ∧
    redis_client (prepare cc (prepare cc app name).app name).app name =
      redis_client (prepare cc app name).app name ∧
    (redis_client (prepare cc app name).app name).isSome = true := by
  have hstored : has_redis_client (prepare cc app name).app name = true := by
    simp [prepare, h1, connect_to_redis, h2, has_redis_client_set_self]
  have h2nd := prepare_of_stored cc (prepare cc app name).app name hstored
  have hcount : (prepare cc app name).app.construct_count =
      app.construct_count + 1 := by
    simp [prepare, h1, connect_to_redis, h2, set_redis_client]
  refine ⟨by rw [h2nd], hcount, by rw [h2nd]; exact hcount, by rw [h2nd], ?_⟩
  rw [redis_client_isSome]
  exact hstored

/-- Witness for C8: the empty scope with an always-reachable transport. -/
theorem prepare_race_witness :
    (prepare cc_true (prepare cc_true app_empty "redis").app "redis").app =
      (prepare cc_true app_empty "redis").app ∧
    (prepare cc_true app_empty "redis").app.construct_count =
      app_empty.construct_count + 1 ∧
    (prepare cc_true
        (prepare cc_true app_empty "redis").app "redis").app.construct_count =
      app_empty.construct_count + 1 ∧
    redis_client
        (prepare cc_true (prepare cc_true app_empty "redis").app "redis").app
        "redis" =
      redis_client (prepare cc_true app_empty "redis").app "redis" ∧
    (redis_client (prepare cc_true app_empty "redis").app "redis").isSome =
      true :=
  prepare_race cc_true app_empty "redis" (by decide) (by decide)

/-- Claim C10: once a handle is stored, a later `prepare` leaves it unchanged
even when the configuration mapping has changed to an arbitrary value: the
settings are only read during construction, so the stored handle and the
whole state are untouched. -/
theorem prepare_ignores_later_config (cc : Nat → Bool) (app : App)
    (name : String) (cfg : Option RedisConfig)
    (h : has_redis_client app name = true) :
    prepare cc { app with redis := cfg } name =
      { app := { app with redis := cfg }, connection_error := false } ∧
    redis_client { app with redis := cfg } name = redis_client app name := by
  have hA : has_redis_client { app with redis := cfg } name = true := h
  exact ⟨by simp [prepare, hA], rfl⟩

/-- Witness for C10: a populated scope whose settings change to `cfg1`. -/
theorem prepare_ignores_later_config_witness :
    prepare cc_true { app_with with redis := some cfg1 } "redis" =
      { app := { app_with with redis := some cfg1 }
      , connection_error := false } ∧
    redis_client { app_with with redis := some cfg1 } "redis" =
      redis_client app_with "redis" :=
  prepare_ignores_later_config cc_true app_with "redis" (some cfg1)
    (by decide)

/-- Witness for C9: the empty scope. -/
theorem accessor_absent_sentinel_witness :
    redis_client app_empty "redis" = none ∧
    redis_get_tasks app_empty "redis" (Arg.str "k") =
      [{ client := none, command := "get", args := [Arg.str "k"] }] :=
  accessor_absent_sentinel app_empty "redis" (Arg.str "k") (by decide)

end Tinman
